import Mathlib

/-!
Verification of the MelodyCompare backend (src/server.js) against its
natural-language specification.

Shallow embedding conventions:
* JavaScript numbers are modelled as `ℤ` where the source only ever produces
  integers (risk scores, stem similarities, timeline values) and as `ℚ` where
  external data may flow in (similarity scores coming from ACRCloud).
* `Math.random()` draws are modelled by a function `rand : Nat → ℚ` giving the
  i-th draw of the handler invocation, with the hypothesis `randOk rand`
  (every draw lies in `[0, 1)`), exactly the contract of `Math.random()`.
  `Math.floor(Math.random() * n)` becomes `randInt rand i n`.
* Calls that leave the process (ACRCloud HTTP fetch, Gemini report/chat/idea
  generation) are modelled by `Except`-valued parameters carrying the outcome
  of the external call; the outbound payloads (prompts, signatures) are not
  observable in any HTTP response of this server and are not modelled.
* `JSON.parse(JSON.stringify(x))` is a deep copy and is the identity here.
* Express handlers become pure functions from their inputs (and the in-memory
  store state where they touch it) to a `Response`; handlers that write to a
  store also return the successor state.  JS `Map`s become association lists
  with `Map.set`/`get`/`delete` semantics (`mapSet`/`mapLookup`/`mapDelete`).
* Server-side generated identifiers (`crypto.randomBytes(6).toString('hex')`
  in /share, `crypto.randomUUID()` in /catalog/submit) are modelled by a
  `genId` parameter: the value produced by the server's RNG for this request.
* `new Date().toISOString()` timestamps are modelled by a `now : Nat`
  millisecond clock parameter; ISO-8601 strings of this fixed format compare
  (lexicographically, and re-parsed via `new Date(...).getTime()`) exactly as
  their underlying millisecond values, so the catalog sort is faithful.
-/

namespace MelodyCompare

/-- Contract of `Math.random()`: every draw lies in `[0, 1)`. -/
def randOk (rand : Nat → ℚ) : Prop := ∀ i, 0 ≤ rand i ∧ rand i < 1

/-- Models `Math.floor(Math.random() * n)` where `rand i` is the i-th
`Math.random()` draw of the current handler invocation. -/
def randInt (rand : Nat → ℚ) (i : Nat) (n : Nat) : ℤ := ⌊rand i * n⌋

/-- Models JavaScript `Math.round` (round half toward positive infinity). -/
def jsRound (q : ℚ) : ℤ := ⌊q + 1/2⌋

/-- The `overview` block of an AnalysisData record. -/
structure Overview where
  similarity : ℚ
  aiProbability : ℤ
  riskLevel : String
  riskScore : ℤ
  overallScore : ℚ
deriving Repr, DecidableEq

/-- The `aiAnalysis` block. -/
structure AiAnalysisInfo where
  confidence : ℚ
  platform : String
  likelihood : String
deriving Repr, DecidableEq

/-- One element of `fingerprinting.matches`. -/
structure FMatch where
  title : String
  artist : String
  url : String
  similarity : ℚ
deriving Repr, DecidableEq

/-- The `fingerprinting` block. -/
structure Fingerprinting where
  «matches» : List FMatch
  highestSimilarity : ℚ
deriving Repr, DecidableEq

/-- A per-stem `similarity`/`aiProbability` pair. -/
structure StemPair where
  similarity : ℤ
  aiProbability : ℤ
deriving Repr, DecidableEq

/-- The `stemAnalysis` block (`vocals` and `drums`). -/
structure StemAnalysisInfo where
  vocals : StemPair
  drums : StemPair
deriving Repr, DecidableEq

/-- One point of `similarityTimeline`. -/
structure TimelinePoint where
  timestamp : ℤ
  similarity : ℤ
deriving Repr, DecidableEq

/-- The AnalysisData value object produced by every analysis path. -/
structure AnalysisData where
  overview : Overview
  aiAnalysis : AiAnalysisInfo
  fingerprinting : Fingerprinting
  stemAnalysis : StemAnalysisInfo
  similarityTimeline : List TimelinePoint
deriving Repr, DecidableEq

/-- `createNoMatchResult` (server.js:90-115): the clean "No Match Found"
record.  Draw order follows the object-literal evaluation order. -/
def createNoMatchResult (rand : Nat → ℚ) : AnalysisData :=
  { overview := { similarity := 0, aiProbability := randInt rand 0 20 + 5,
                  riskLevel := "Low", riskScore := randInt rand 1 15,
                  overallScore := 0 },
    aiAnalysis := { confidence := 94.2, platform := "Suno AI", likelihood := "High" },
    fingerprinting := { «matches» := [], highestSimilarity := 0 },
    stemAnalysis := { vocals := { similarity := randInt rand 2 20, aiProbability := 92 },
                      drums := { similarity := randInt rand 3 20, aiProbability := 88 } },
    similarityTimeline := (List.range 13).map (fun (i : Nat) =>
      { timestamp := (i : ℤ) * 15, similarity := randInt rand (4 + i) 20 }) }

/-- The hard-coded 13-point timeline literal that both the simulated path
(server.js:219) and the live-match path (server.js:169) inline verbatim. -/
def templateTimeline : List TimelinePoint :=
  [⟨0, 20⟩, ⟨15, 30⟩, ⟨30, 45⟩, ⟨45, 85⟩, ⟨60, 88⟩, ⟨75, 50⟩, ⟨90, 40⟩,
   ⟨105, 92⟩, ⟨120, 90⟩, ⟨135, 60⟩, ⟨150, 35⟩, ⟨165, 25⟩, ⟨180, 20⟩]

/-- `runSimulatedFingerprinting` (server.js:208-229): deep-copies the
template and overwrites similarity, overallScore, riskScore, riskLevel,
highestSimilarity and the single match similarity.  Draw order: similarity,
riskScore, highestSimilarity jitter. -/
def runSimulatedFingerprinting (rand : Nat → ℚ) : AnalysisData :=
  let similarity : ℤ := randInt rand 0 80 + 10
  let riskScore : ℤ := randInt rand 1 80 + 10
  let riskLevel : String :=
    if riskScore > 75 then "High" else if riskScore > 40 then "Medium" else "Low"
  let highestSimilarity : ℤ := similarity + randInt rand 2 10
  { overview := { similarity := (similarity : ℚ), aiProbability := 94,
                  riskLevel := riskLevel, riskScore := riskScore,
                  overallScore := (similarity : ℚ) },
    aiAnalysis := { confidence := 94.2, platform := "Suno AI", likelihood := "High" },
    fingerprinting := {
      «matches» := [{ title := "Celestial Echo (Simulated)",
                      artist := "Starlight Synths",
                      url := "https://soundcloud.com/starlightsynths/celestial-echo",
                      similarity := (highestSimilarity : ℚ) }],
      highestSimilarity := (highestSimilarity : ℚ) },
    stemAnalysis := { vocals := { similarity := 85, aiProbability := 92 },
                      drums := { similarity := 92, aiProbability := 88 } },
    similarityTimeline := templateTimeline }

/-- Strips a trailing file extension: models the JS
`name.replace(/\.[^/.]+$/, "")` of server.js:235 (a dot followed by one or
more non-dot, non-slash characters, anchored at the end of the string). -/
def stripExt (s : String) : String :=
  let rev := s.data.reverse
  let p := rev.takeWhile (fun c => c ≠ '.' && c ≠ '/')
  match rev.drop p.length with
  | '.' :: rest => if p.isEmpty then s else String.mk rest.reverse
  | _ => s

/-- `runSimulatedComparison` (server.js:231-269).  Draw order: similarity,
riskScore jitter, aiProbability, vocals, drums, then 13 timeline jitters. -/
def runSimulatedComparison (copyrightedSongName : String) (rand : Nat → ℚ) : AnalysisData :=
  let similarity : ℤ := randInt rand 0 50 + 50
  let riskScore : ℤ := ⌊(similarity : ℚ) * 0.8⌋ + randInt rand 1 20
  let riskLevel : String :=
    if riskScore > 75 then "High" else if riskScore > 40 then "Medium" else "Low"
  let cleanCopyrightedName := stripExt copyrightedSongName
  { overview := { similarity := (similarity : ℚ), aiProbability := randInt rand 2 20 + 75,
                  riskLevel := riskLevel, riskScore := riskScore,
                  overallScore := (similarity : ℚ) },
    aiAnalysis := { confidence := 96.8, platform := "Suno AI", likelihood := "Very High" },
    fingerprinting := {
      «matches» := [{ title := cleanCopyrightedName,
                      artist := "Uploaded Track", url := "#",
                      similarity := (similarity : ℚ) }],
      highestSimilarity := (similarity : ℚ) },
    stemAnalysis := { vocals := { similarity := randInt rand 3 40 + 55, aiProbability := 94 },
                      drums := { similarity := randInt rand 4 40 + 58, aiProbability := 91 } },
    similarityTimeline := (List.range 13).map (fun (i : Nat) =>
      { timestamp := (i : ℤ) * 15,
        similarity := max 0 (min 100 (jsRound ((similarity : ℚ) * (1 - |(i : ℚ) - 6| / 6) +
                        (rand (5 + i) - 0.5) * 20))) }) }

/-- The `status` object of an ACRCloud response. -/
structure AcrStatus where
  code : ℤ
  msg : String
deriving Repr, DecidableEq

/-- One artist entry of an ACRCloud music match. -/
structure AcrArtist where
  name : String
deriving Repr, DecidableEq

/-- One music match of an ACRCloud response (`metadata.music[i]`). -/
structure AcrMusic where
  title : String
  artists : List AcrArtist
  score : ℚ
deriving Repr, DecidableEq

/-- The `metadata` object of an ACRCloud response. -/
structure AcrMetadata where
  music : List AcrMusic
deriving Repr, DecidableEq

/-- A parsed ACRCloud response body. -/
structure AcrResponse where
  status : AcrStatus
  metadata : Option AcrMetadata
deriving Repr, DecidableEq

/-- `transformAcrResponseToAnalysisData` (server.js:123-171).  `enc` models
the JS builtin `encodeURIComponent` (only used inside the YouTube search
URL).  Status codes other than 0 and 1001 throw; no matches yields
`createNoMatchResult`; otherwise the matches are normalised.  Draw order:
riskScore jitter, aiProbability, vocals, drums. -/
def transformAcrResponseToAnalysisData (enc : String → String) (rand : Nat → ℚ)
    (acrResponse : AcrResponse) : Except String AnalysisData :=
  if acrResponse.status.code ≠ 0 ∧ acrResponse.status.code ≠ 1001 then
    Except.error ("ACRCloud API Error: " ++ acrResponse.status.msg ++
      " (Code: " ++ toString acrResponse.status.code ++ ")")
  else
    match (acrResponse.metadata.map AcrMetadata.music).getD [] with
    | [] => Except.ok (createNoMatchResult rand)
    | m0 :: ms =>
      let highestSimilarity : ℚ := m0.score
      let riskScore : ℤ := ⌊highestSimilarity / 100 * 80⌋ + randInt rand 0 20
      let riskLevel : String :=
        if riskScore > 75 then "High" else if riskScore > 40 then "Medium" else "Low"
      Except.ok
        { overview := { similarity := highestSimilarity,
                        aiProbability := randInt rand 1 40 + 50,
                        riskLevel := riskLevel, riskScore := riskScore,
                        overallScore := highestSimilarity },
          aiAnalysis := { confidence := 94.2, platform := "Suno AI", likelihood := "High" },
          fingerprinting := {
            «matches» := (m0 :: ms).map (fun m =>
              { title := m.title,
                artist := (let s := String.intercalate ", " (m.artists.map AcrArtist.name);
                           if s = "" then "Unknown Artist" else s),
                url := "https://youtube.com/results?search_query=" ++
                       enc (m.title ++ " " ++ ((m.artists.head?.map AcrArtist.name).getD "")),
                similarity := m.score }),
            highestSimilarity := highestSimilarity },
          stemAnalysis := { vocals := { similarity := randInt rand 2 50 + 40, aiProbability := 92 },
                            drums := { similarity := randInt rand 3 50 + 40, aiProbability := 88 } },
          similarityTimeline := templateTimeline }

/-- `runLiveFingerprinting` (server.js:179-206): the HTTP fetch to ACRCloud
is modelled by `acrNet` (`Except.error` when `!response.ok`, carrying the
error text); on success the body is transformed. -/
def runLiveFingerprinting (acrNet : Except String AcrResponse) (enc : String → String)
    (rand : Nat → ℚ) : Except String AnalysisData :=
  match acrNet with
  | Except.error e => Except.error ("ACRCloud API HTTP Error: " ++ e)
  | Except.ok acrResponse => transformAcrResponseToAnalysisData enc rand acrResponse

/-- The fixed three-way threshold written (three times) in the source:
`riskScore > 75 ? 'High' : riskScore > 40 ? 'Medium' : 'Low'`. -/
def riskLevelOfScore (riskScore : ℤ) : String :=
  if riskScore > 75 then "High" else if riskScore > 40 then "Medium" else "Low"

/-- An AnalysisData record whose `riskLevel` agrees with the fixed threshold
scheme applied to its own `riskScore`. -/
def riskConsistent (ad : AnalysisData) : Prop :=
  ad.overview.riskLevel = riskLevelOfScore ad.overview.riskScore

/-- An HTTP response of this server: either a success with a typed JSON (or
binary/stream) payload, or an error status with the `{ error: string }`
JSON body that every error path of the router emits. -/
inductive Response (α : Type) where
  | ok (status : Nat) (payload : α)
  | err (status : Nat) (error : String)
deriving Repr, DecidableEq

/-- `handleApiError` (server.js:304-307): logs and answers
`500 { error: "Failed to <context>. Please check the server logs." }`. -/
def handleApiError {α : Type} (context : String) : Response α :=
  Response.err 500 ("Failed to " ++ context ++ ". Please check the server logs.")

/-- A multer in-memory uploaded file (the fields the server reads). -/
structure UploadedFile where
  originalname : String
  mimetype : String
  size : Nat
  buffer : List Nat
deriving Repr, DecidableEq

/-- The success body `{ analysisData, reportText }` of /analyze and /compare. -/
structure AnalyzeResult where
  analysisData : AnalysisData
  reportText : String
deriving Repr, DecidableEq

/-- POST /api/analyze (server.js:313-335).  `file` is `req.file` (multer's
single 'audioFile' field); `useLiveAnalysis` is the credential-presence flag
of server.js:41; `geminiReport` is the outcome of `generateInitialReport`
(the Gemini call, whose text is returned verbatim). -/
def analyzeHandler (useLiveAnalysis : Bool) (file : Option UploadedFile)
    (acrNet : Except String AcrResponse) (enc : String → String) (rand : Nat → ℚ)
    (geminiReport : Except String String) : Response AnalyzeResult :=
  match file with
  | none => Response.err 400 "No audio file was uploaded."
  | some _ =>
    let analysisData : Except String AnalysisData :=
      if useLiveAnalysis then runLiveFingerprinting acrNet enc rand
      else Except.ok (runSimulatedFingerprinting rand)
    match analysisData with
    | Except.error _ => handleApiError "perform analysis and generate report"
    | Except.ok ad =>
      match geminiReport with
      | Except.error _ => handleApiError "perform analysis and generate report"
      | Except.ok reportText => Response.ok 200 { analysisData := ad, reportText := reportText }

/-- POST /api/compare (server.js:337-360).  `aiSongFile` and
`copyrightedSongFile` are `req.files?.aiSong?.[0]` and
`req.files?.copyrightedSong?.[0]`. -/
def compareHandler (aiSongFile : Option UploadedFile) (copyrightedSongFile : Option UploadedFile)
    (rand : Nat → ℚ) (geminiReport : Except String String) : Response AnalyzeResult :=
  match aiSongFile, copyrightedSongFile with
  | some _, some c =>
    let analysisData := runSimulatedComparison c.originalname rand
    match geminiReport with
    | Except.error _ => handleApiError "perform song comparison"
    | Except.ok reportText => Response.ok 200 { analysisData := analysisData, reportText := reportText }
  | _, _ => Response.err 400 "Both an AI song and a copyrighted song must be uploaded."

/-- JS Map.get: first (unique) binding of the key. -/
def mapLookup {α : Type} : List (String × α) → String → Option α
  | [], _ => none
  | (k', v) :: rest, k => if k' = k then some v else mapLookup rest k

/-- JS Map.set: replaces the binding in place if the key exists, else
appends (preserving Map iteration order). -/
def mapSet {α : Type} : List (String × α) → String → α → List (String × α)
  | [], k, v => [(k, v)]
  | (k', v') :: rest, k, v =>
    if k' = k then (k, v) :: rest else (k', v') :: mapSet rest k v

/-- JS Map.delete: removes the binding of the key. -/
def mapDelete {α : Type} : List (String × α) → String → List (String × α)
  | [], _ => []
  | (k', v) :: rest, k =>
    if k' = k then mapDelete rest k else (k', v) :: mapDelete rest k

/-- A value of the `sharedAnalyses` store: `{ analysisData, reportText }`. -/
structure SharedEntry where
  analysisData : AnalysisData
  reportText : String
deriving Repr, DecidableEq

/-- A value of the `catalogEntries` store (server.js:566-576).
`dateSubmitted` is the creation-time millisecond timestamp (the source
stores `new Date().toISOString()` and the listing re-parses it with
`new Date(...).getTime()`; the two representations are order-isomorphic).
`riskScore` holds `Number(riskScore)` of the submitted string. -/
structure CatalogEntry where
  id : String
  analysisId : String
  userId : String
  userName : String
  title : String
  genre : String
  tags : List String
  dateSubmitted : Nat
  riskScore : ℚ
deriving Repr, DecidableEq

/-- A value of the `audioStore`: `{ buffer, mimetype }`. -/
structure AudioBlob where
  buffer : List Nat
  mimetype : String
deriving Repr, DecidableEq

/-- The three process-wide maps (server.js:23-25) plus the multiset of
pending `setTimeout` share-expiry callbacks (fire time in ms, share id). -/
structure ServerState where
  sharedAnalyses : List (String × SharedEntry)
  catalogEntries : List (String × CatalogEntry)
  audioStore : List (String × AudioBlob)
  timers : List (Nat × String)
deriving Repr, DecidableEq

/-- The state at process start: all stores empty. -/
def emptyState : ServerState :=
  { sharedAnalyses := [], catalogEntries := [], audioStore := [], timers := [] }

/-- JS truthiness of an optional string field: absent and `""` are falsy. -/
def strTruthy : Option String → Bool
  | none => false
  | some s => s != ""

/-- POST /api/share (server.js:362-380).  `genId` models
`crypto.randomBytes(6).toString('hex')`: a server-generated identifier.  A
successful share stores the entry and schedules its deletion 24 hours
(86,400,000 ms) later; the response is `201 { id }`. -/
def shareHandler (st : ServerState) (now : Nat) (genId : String)
    (analysisData : Option AnalysisData) (reportText : Option String) :
    Response String × ServerState :=
  match analysisData, reportText with
  | some ad, some rt =>
    if rt = "" then
      (Response.err 400 "Analysis data and report text are required to create a shareable link.", st)
    else
      (Response.ok 201 genId,
       { st with
         sharedAnalyses := mapSet st.sharedAnalyses genId { analysisData := ad, reportText := rt },
         timers := st.timers ++ [(now + 24 * 60 * 60 * 1000, genId)] })
  | _, _ =>
    (Response.err 400 "Analysis data and report text are required to create a shareable link.", st)

/-- The body of the `setTimeout` callback registered by /share
(server.js:371-374): `sharedAnalyses.delete(id)`. -/
def fireShareExpiry (st : ServerState) (id : String) : ServerState :=
  { st with sharedAnalyses := mapDelete st.sharedAnalyses id }

/-- GET /api/analysis/:id (server.js:404-418). -/
def getAnalysisHandler (st : ServerState) (id : String) : Response SharedEntry :=
  match mapLookup st.sharedAnalyses id with
  | some data => Response.ok 200 data
  | none => Response.err 404 "Shared analysis not found. It may have expired."

/-- POST /api/analysis-audio/:id (server.js:382-402).  Note: `id` is the
client-supplied path parameter, written to the audio store verbatim. -/
def audioPostHandler (st : ServerState) (id : String) (file : Option UploadedFile) :
    Response Unit × ServerState :=
  match file with
  | none => (Response.err 400 "No audio file was uploaded.", st)
  | some f =>
    if id = "" then (Response.err 400 "An analysis ID is required.", st)
    else
      (Response.ok 204 (),
       { st with audioStore := mapSet st.audioStore id { buffer := f.buffer, mimetype := f.mimetype } })

/-- The binary audio response of GET /audio/:id: the stored bytes with the
`Content-Type` and `Content-Length` headers the handler sets. -/
structure AudioFileResponse where
  contentType : String
  contentLength : Nat
  body : List Nat
deriving Repr, DecidableEq

/-- GET /api/audio/:id (server.js:600-615). -/
def audioGetHandler (st : ServerState) (id : String) : Response AudioFileResponse :=
  match mapLookup st.audioStore id with
  | some audio =>
    Response.ok 200 { contentType := audio.mimetype,
                      contentLength := audio.buffer.length, body := audio.buffer }
  | none => Response.err 404 "Audio file not found."

/-- POST /api/generate-report (server.js:420-432); payload is the
`reportText` string. -/
def generateReportHandler (analysisData : Option AnalysisData)
    (geminiReport : Except String String) : Response String :=
  match analysisData with
  | none => Response.err 400 "analysisData is required."
  | some _ =>
    match geminiReport with
    | Except.error _ => handleApiError "generate initial report"
    | Except.ok reportText => Response.ok 200 reportText

/-- One message of the assistant-chat history. -/
structure ChatMessage where
  role : String
  content : String
deriving Repr, DecidableEq

/-- The UI context tag of the assistant chat.  Only its presence matters for
any observable response; the system instruction it selects is outbound-only. -/
structure ChatContext where
  appState : String
  analysisData : Option AnalysisData
deriving Repr, DecidableEq

/-- POST /api/assistant-chat (server.js:434-468).  The streamed chunks of
the upstream Gemini stream are concatenated into the text/plain response
body; `geminiStream` is the outcome of the upstream call.  JS truthiness:
an absent history/context and an absent or empty message are rejected. -/
def assistantChatHandler (history : Option (List ChatMessage)) (message : Option String)
    (context : Option ChatContext) (geminiStream : Except String (List String)) :
    Response String :=
  if !history.isSome || !strTruthy message || !context.isSome then
    Response.err 400 "History, message, and context are required."
  else
    match geminiStream with
    | Except.error _ => handleApiError "process assistant chat stream"
    | Except.ok chunks => Response.ok 200 (String.join chunks)

/-- POST /api/brainstorm (server.js:470-506).  The handler performs NO
validation: it immediately evaluates `Object.entries(data.stemAnalysis)` on
the destructured `analysisData`, so a missing `analysisData` raises a
TypeError that the catch block converts to a 500 via `handleApiError` —
there is no 400 path.  With data present, the prompt built from `mode` and
`theme` is outbound-only; `gemini` is the outcome of the Gemini call with
the JSON string-array response schema (a malformed body that fails
`JSON.parse` lands in the error case). -/
def brainstormHandler (analysisData : Option AnalysisData) (_mode _theme : Option String)
    (gemini : Except String (List String)) : Response (List String) :=
  match analysisData with
  | none => handleApiError "generate brainstorming ideas"
  | some _ =>
    match gemini with
    | Except.error _ => handleApiError "generate brainstorming ideas"
    | Except.ok ideas => Response.ok 200 ideas

/-- POST /api/enhance-prompt (server.js:508-533); payload is the
`enhancedPrompt` string. -/
def enhancePromptHandler (basePrompt : Option String)
    (gemini : Except String String) : Response String :=
  if !strTruthy basePrompt then Response.err 400 "basePrompt is required"
  else
    match gemini with
    | Except.error _ => handleApiError "enhance music prompt"
    | Except.ok enhancedPrompt => Response.ok 200 enhancedPrompt

/-- POST /api/feedback (server.js:535-554): validates, logs (not modelled)
and answers 204. -/
def feedbackHandler (ftype message _email : Option String) : Response Unit :=
  if !strTruthy ftype || !strTruthy message then
    Response.err 400 "Feedback type and message are required."
  else Response.ok 204 ()

/-- POST /api/catalog/submit (server.js:556-589).  `genId` models
`crypto.randomUUID()`: a server-generated identifier, used as the key of
BOTH the catalog entry and its audio blob.  The `riskScore` body field is a
string in JS; it is modelled pre-parsed (`Number(riskScore)`), with `none`
for the absent-or-empty (falsy) case. -/
def catalogSubmitHandler (st : ServerState) (now : Nat) (genId : String)
    (title genre tags analysisId userId userName : Option String)
    (riskScore : Option ℚ) (file : Option UploadedFile) :
    Response CatalogEntry × ServerState :=
  match title, genre, tags, analysisId, userId, userName, riskScore, file with
  | some t, some gnr, some tg, some aid, some uid, some un, some rs, some f =>
    if t = "" ∨ gnr = "" ∨ tg = "" ∨ aid = "" ∨ uid = "" ∨ un = "" then
      (Response.err 400 "Missing required fields for catalog submission.", st)
    else
      let newEntry : CatalogEntry :=
        { id := genId, analysisId := aid, userId := uid, userName := un,
          title := t, genre := gnr, tags := (tg.splitOn ",").map String.trim,
          dateSubmitted := now, riskScore := rs }
      (Response.ok 201 newEntry,
       { st with
         catalogEntries := mapSet st.catalogEntries genId newEntry,
         audioStore := mapSet st.audioStore genId { buffer := f.buffer, mimetype := f.mimetype } })
  | _, _, _, _, _, _, _, _ =>
    (Response.err 400 "Missing required fields for catalog submission.", st)

/-- The descending-by-`dateSubmitted` order of the catalog listing
comparator `(a, b) => new Date(b.dateSubmitted).getTime() - new Date(a.dateSubmitted).getTime()`. -/
def catalogLe (a b : CatalogEntry) : Prop := b.dateSubmitted ≤ a.dateSubmitted

instance : DecidableRel catalogLe := fun a b => Nat.decLe b.dateSubmitted a.dateSubmitted

instance : IsTotal CatalogEntry catalogLe := ⟨fun a b => Nat.le_total b.dateSubmitted a.dateSubmitted⟩

instance : IsTrans CatalogEntry catalogLe :=
  ⟨fun _ _ _ hab hbc => Nat.le_trans hbc hab⟩

/-- GET /api/catalog/entries (server.js:591-598): sorts the store's values
descending by submission time and returns them; the store is untouched.
(`Array.prototype.sort` with this comparator produces a permutation of the
values that is sorted under `catalogLe`; it is modelled by insertion sort,
which has exactly those properties.) -/
def catalogListHandler (st : ServerState) : Response (List CatalogEntry) × ServerState :=
  (Response.ok 200 (List.insertionSort catalogLe (st.catalogEntries.map Prod.snd)), st)

/-- The all-zero random stream, used to instantiate witnesses. -/
def rand0 : Nat → ℚ := fun _ => 0

/-- A concrete ACRCloud success response with one match. -/
def acr0 : AcrResponse :=
  { status := { code := 0, msg := "Success" },
    metadata := some { music := [{ title := "Song T", artists := [{ name := "Artist A" }],
                                   score := 60 }] } }

/-- A concrete ACRCloud error response (status code 3000). -/
def acrBad : AcrResponse :=
  { status := { code := 3000, msg := "Service error" }, metadata := none }

/-- The AnalysisData that `transformAcrResponseToAnalysisData` produces on
`acr0` with the all-zero random stream. -/
def adLive0 : AnalysisData :=
  match transformAcrResponseToAnalysisData id rand0 acr0 with
  | Except.ok ad => ad
  | Except.error _ => createNoMatchResult rand0

/-- A concrete uploaded file. -/
def file0 : UploadedFile :=
  { originalname := "song.wav", mimetype := "audio/wav", size := 3000000,
    buffer := [82, 73, 70, 70] }

/-- A second concrete uploaded file. -/
def file1 : UploadedFile :=
  { originalname := "a.mp3", mimetype := "audio/mpeg", size := 4, buffer := [1, 2, 3, 4] }

/-- A third concrete uploaded file, with different bytes than `file1`. -/
def file2 : UploadedFile :=
  { originalname := "b.mp3", mimetype := "audio/mpeg", size := 2, buffer := [9, 9] }

/-!  Theorems.  -/

theorem randInt_bounds (rand : Nat → ℚ) (h : randOk rand) (i n : Nat) (hn : 0 < n) :
    0 ≤ randInt rand i n ∧ randInt rand i n < (n : ℤ) := by
  obtain ⟨h0, h1⟩ := h i
  have hnq : (0 : ℚ) < (n : ℚ) := by exact_mod_cast hn
  constructor
  · exact Int.le_floor.mpr (by simpa using mul_nonneg h0 (le_of_lt hnq))
  · refine Int.floor_lt.mpr ?_
    calc rand i * (n : ℚ) < 1 * (n : ℚ) := mul_lt_mul_of_pos_right h1 hnq
    _ = (n : ℚ) := one_mul _

theorem noMatch_riskConsistent (rand : Nat → ℚ) (h : randOk rand) :
    riskConsistent (createNoMatchResult rand) := by
  obtain ⟨hb0, hb1⟩ := randInt_bounds rand h 1 15 (by norm_num)
  have h75 : ¬ (randInt rand 1 15 > 75) := by omega
  have h40 : ¬ (randInt rand 1 15 > 40) := by omega
  simp [riskConsistent, createNoMatchResult, riskLevelOfScore, h75, h40]

theorem mapLookup_mapSet_self {α : Type} (m : List (String × α)) (k : String) (v : α) :
    mapLookup (mapSet m k v) k = some v := by
  induction m with
  | nil => simp [mapSet, mapLookup]
  | cons p rest ih =>
    by_cases hk : p.1 = k
    · simp [mapSet, hk, mapLookup]
    · simpa [mapSet, hk, mapLookup] using ih

theorem mapLookup_mapDelete_self {α : Type} (m : List (String × α)) (k : String) :
    mapLookup (mapDelete m k) k = none := by
  induction m with
  | nil => simp [mapDelete, mapLookup]
  | cons p rest ih =>
    by_cases hk : p.1 = k
    · simpa [mapDelete, hk] using ih
    · simpa [mapDelete, hk, mapLookup] using ih

theorem mapLookup_mapDelete_ne {α : Type} (m : List (String × α)) (kd k : String)
    (h : k ≠ kd) : mapLookup (mapDelete m kd) k = mapLookup m k := by
  induction m with
  | nil => simp [mapDelete]
  | cons p rest ih =>
    have hdk : kd ≠ k := Ne.symm h
    by_cases hk : p.1 = kd
    · have hpk : p.1 ≠ k := fun hc => h (hc ▸ hk)
      simp [mapDelete, hk, mapLookup, hpk, hdk, ih]
    · by_cases hpk : p.1 = k
      · simp [mapDelete, hk, mapLookup, hpk, h, ih]
      · simp [mapDelete, hk, mapLookup, hpk, ih]

/-- C1: on every producing path of the database-scan endpoint — the simulated
fallback, the live-match transformation, and the no-match result — the
returned record's `overview.riskLevel` equals the fixed three-way threshold
function of its `overview.riskScore` (> 75 High, > 40 Medium, else Low). -/
theorem c1_riskLevel_thresholds (rand : Nat → ℚ) (h : randOk rand)
    (enc : String → String) (acr : AcrResponse) (ad : AnalysisData)
    (hacr : transformAcrResponseToAnalysisData enc rand acr = Except.ok ad) :
    riskConsistent (runSimulatedFingerprinting rand) ∧
    riskConsistent (createNoMatchResult rand) ∧
    riskConsistent ad := by
  refine ⟨rfl, noMatch_riskConsistent rand h, ?_⟩
  unfold transformAcrResponseToAnalysisData at hacr
  split at hacr
  · exact absurd hacr (by simp)
  · split at hacr
    · injection hacr with h2
      subst h2
      exact noMatch_riskConsistent rand h
    · injection hacr with h2
      subst h2
      rfl

/-- C1 witness at the all-zero random stream and a concrete one-match
ACRCloud response. -/
theorem c1_witness :
    randOk rand0 ∧
    (riskConsistent (runSimulatedFingerprinting rand0) ∧
     riskConsistent (createNoMatchResult rand0) ∧
     riskConsistent adLive0) :=
  ⟨fun _ => ⟨le_refl 0, by norm_num [rand0]⟩,
   c1_riskLevel_thresholds rand0 (fun _ => ⟨le_refl 0, by norm_num [rand0]⟩) id acr0 adLive0 rfl⟩

theorem transform_error_of_bad_status (enc : String → String) (rand : Nat → ℚ)
    (acr : AcrResponse) (hcode : acr.status.code ≠ 0) (hcode2 : acr.status.code ≠ 1001) :
    transformAcrResponseToAnalysisData enc rand acr =
      Except.error ("ACRCloud API Error: " ++ acr.status.msg ++
        " (Code: " ++ toString acr.status.code ++ ")") := by
  unfold transformAcrResponseToAnalysisData
  rw [if_pos ⟨hcode, hcode2⟩]

/-- C2 counterexample: with live analysis enabled, a failing ACRCloud HTTP
call makes /analyze answer 500 — it does NOT fall back to synthetic
generation and does not return a successful AnalysisRecord (the pending
Gemini report succeeding notwithstanding). -/
theorem c2_counterexample :
    analyzeHandler true (some file0) (Except.error "500 Internal Server Error") id rand0
      (Except.ok "A full report") =
      Response.err 500 "Failed to perform analysis and generate report. Please check the server logs." := rfl

/-- C2 (amended): when live fingerprinting is enabled and the external call
fails — either at the HTTP level or through an error status code in the
response body — the /analyze handler catches the error and returns HTTP 500
with the generic message; synthetic generation is used exactly when the
external credentials are absent (`useLiveAnalysis = false`), not on call
failure. -/
theorem c2_live_failure_500 (f : UploadedFile) (e : String) (enc : String → String)
    (rand : Nat → ℚ) (rep : Except String String) (acr : AcrResponse)
    (hcode : acr.status.code ≠ 0) (hcode2 : acr.status.code ≠ 1001)
    (acrNet : Except String AcrResponse) (r : String) :
    analyzeHandler true (some f) (Except.error e) enc rand rep =
      Response.err 500 "Failed to perform analysis and generate report. Please check the server logs." ∧
    analyzeHandler true (some f) (Except.ok acr) enc rand rep =
      Response.err 500 "Failed to perform analysis and generate report. Please check the server logs." ∧
    analyzeHandler false (some f) acrNet enc rand (Except.ok r) =
      Response.ok 200 { analysisData := runSimulatedFingerprinting rand, reportText := r } := by
  refine ⟨rfl, ?_, rfl⟩
  have he := transform_error_of_bad_status enc rand acr hcode hcode2
  simp [analyzeHandler, runLiveFingerprinting, he, handleApiError]

/-- C2 witness at concrete inputs: an HTTP-level failure, a status-code
failure (code 3000), and the credentials-absent simulated path. -/
theorem c2_witness :
    analyzeHandler true (some file0) (Except.error "boom") id rand0 (Except.ok "ok") =
      Response.err 500 "Failed to perform analysis and generate report. Please check the server logs." ∧
    analyzeHandler true (some file0) (Except.ok acrBad) id rand0 (Except.ok "ok") =
      Response.err 500 "Failed to perform analysis and generate report. Please check the server logs." ∧
    analyzeHandler false (some file0) (Except.ok acrBad) id rand0 (Except.ok "ok") =
      Response.ok 200 { analysisData := runSimulatedFingerprinting rand0, reportText := "ok" } :=
  c2_live_failure_500 file0 "boom" id rand0 (Except.ok "ok") acrBad
    (by decide) (by decide) (Except.ok acrBad) "ok"

/-- C3: a /compare request with both files present (and a successful report
call) answers 200 with the simulated comparison record, whose similarity
lies in [50, 100] and whose riskLevel follows the fixed thresholds on its
riskScore. -/
theorem c3_compare_bounds (a c : UploadedFile) (rand : Nat → ℚ) (h : randOk rand) (r : String) :
    compareHandler (some a) (some c) rand (Except.ok r) =
      Response.ok 200 { analysisData := runSimulatedComparison c.originalname rand,
                        reportText := r } ∧
    50 ≤ (runSimulatedComparison c.originalname rand).overview.similarity ∧
    (runSimulatedComparison c.originalname rand).overview.similarity ≤ 100 ∧
    riskConsistent (runSimulatedComparison c.originalname rand) := by
  obtain ⟨hb0, hb1⟩ := randInt_bounds rand h 0 50 (by norm_num)
  have hsim : (runSimulatedComparison c.originalname rand).overview.similarity =
      ((randInt rand 0 50 + 50 : ℤ) : ℚ) := rfl
  refine ⟨rfl, ?_, ?_, rfl⟩
  · rw [hsim]
    exact_mod_cast (by omega : (50 : ℤ) ≤ randInt rand 0 50 + 50)
  · rw [hsim]
    exact_mod_cast (by omega : randInt rand 0 50 + 50 ≤ (100 : ℤ))

/-- C3 witness at the all-zero random stream and concrete files. -/
theorem c3_witness :
    randOk rand0 ∧
    (compareHandler (some file1) (some file0) rand0 (Except.ok "report") =
       Response.ok 200 { analysisData := runSimulatedComparison file0.originalname rand0,
                         reportText := "report" } ∧
     50 ≤ (runSimulatedComparison file0.originalname rand0).overview.similarity ∧
     (runSimulatedComparison file0.originalname rand0).overview.similarity ≤ 100 ∧
     riskConsistent (runSimulatedComparison file0.originalname rand0)) :=
  ⟨fun _ => ⟨le_refl 0, by norm_num [rand0]⟩,
   c3_compare_bounds file1 file0 rand0 (fun _ => ⟨le_refl 0, by norm_num [rand0]⟩) "report"⟩

/-- C4 counterexample: POST /brainstorm with the `analysisData` field
missing answers 500 (the unvalidated property access throws and the catch
block converts it), not the 400 the claim asserts for every POST endpoint. -/
theorem c4_counterexample :
    brainstormHandler none (some "titles") none (Except.ok ["an idea"]) =
      Response.err 500 "Failed to generate brainstorming ideas. Please check the server logs." := rfl

/-- C4 (amended): every POST endpoint that validates its body returns 400
on a missing required field (/assistant-chat, /generate-report,
/enhance-prompt, /feedback, /share, /analysis-audio, /catalog/submit,
/analyze, /compare), and a lookup of a missing identifier returns 404 —
but /brainstorm performs no validation, and a request missing
`analysisData` yields 500 with the generic message instead of 400. -/
theorem c4_validation_amended
    (m t : Option String) (g : Except String (List String))
    (hst : Option (List ChatMessage)) (msg : Option String) (c : Option ChatContext)
    (s : Except String (List String)) (rep : Except String String)
    (gp : Except String String) (e : Option String)
    (st : ServerState) (now : Nat) (gen : String)
    (rt : Option String) (ad : Option AnalysisData)
    (i : String) (f : Option UploadedFile)
    (useLive : Bool) (net : Except String AcrResponse) (enc : String → String)
    (rand : Nat → ℚ) (a c2 : Option UploadedFile)
    (oth1 oth2 oth3 oth4 oth5 : Option String) (rs : Option ℚ)
    (j : String) (hj : mapLookup st.sharedAnalyses j = none)
    (k : String) (hk : mapLookup st.audioStore k = none) :
    brainstormHandler none m t g =
      Response.err 500 "Failed to generate brainstorming ideas. Please check the server logs." ∧
    assistantChatHandler none msg c s =
      Response.err 400 "History, message, and context are required." ∧
    assistantChatHandler hst none c s =
      Response.err 400 "History, message, and context are required." ∧
    assistantChatHandler hst msg none s =
      Response.err 400 "History, message, and context are required." ∧
    generateReportHandler none rep = Response.err 400 "analysisData is required." ∧
    enhancePromptHandler none gp = Response.err 400 "basePrompt is required" ∧
    feedbackHandler none msg e =
      Response.err 400 "Feedback type and message are required." ∧
    feedbackHandler m none e =
      Response.err 400 "Feedback type and message are required." ∧
    shareHandler st now gen none rt =
      (Response.err 400 "Analysis data and report text are required to create a shareable link.", st) ∧
    shareHandler st now gen ad none =
      (Response.err 400 "Analysis data and report text are required to create a shareable link.", st) ∧
    audioPostHandler st i none = (Response.err 400 "No audio file was uploaded.", st) ∧
    catalogSubmitHandler st now gen none oth1 oth2 oth3 oth4 oth5 rs f =
      (Response.err 400 "Missing required fields for catalog submission.", st) ∧
    analyzeHandler useLive none net enc rand rep =
      Response.err 400 "No audio file was uploaded." ∧
    compareHandler none c2 rand rep =
      Response.err 400 "Both an AI song and a copyrighted song must be uploaded." ∧
    compareHandler a none rand rep =
      Response.err 400 "Both an AI song and a copyrighted song must be uploaded." ∧
    getAnalysisHandler st j =
      Response.err 404 "Shared analysis not found. It may have expired." ∧
    audioGetHandler st k = Response.err 404 "Audio file not found." := by
  refine ⟨rfl, rfl, ?_, ?_, rfl, rfl, rfl, ?_, ?_, ?_, rfl, rfl, rfl, ?_, ?_, ?_, ?_⟩
  · simp [assistantChatHandler, strTruthy]
  · simp [assistantChatHandler, strTruthy]
  · simp [feedbackHandler, strTruthy]
  · cases rt <;> rfl
  · cases ad <;> rfl
  · cases c2 <;> rfl
  · cases a <;> rfl
  · simp [getAnalysisHandler, hj]
  · simp [audioGetHandler, hk]

/-- C4 witness: the amended theorem at fully concrete inputs (empty stores,
so the two identifier lookups miss). -/
theorem c4_witness :
    brainstormHandler none (some "lyrics") none (Except.ok []) =
      Response.err 500 "Failed to generate brainstorming ideas. Please check the server logs." ∧
    assistantChatHandler none (some "hello") (some { appState := "home", analysisData := none })
        (Except.ok []) =
      Response.err 400 "History, message, and context are required." ∧
    assistantChatHandler (some []) none (some { appState := "home", analysisData := none })
        (Except.ok []) =
      Response.err 400 "History, message, and context are required." ∧
    assistantChatHandler (some []) (some "hello") none (Except.ok []) =
      Response.err 400 "History, message, and context are required." ∧
    generateReportHandler none (Except.ok "r") = Response.err 400 "analysisData is required." ∧
    enhancePromptHandler none (Except.ok "p") = Response.err 400 "basePrompt is required" ∧
    feedbackHandler none (some "hello") none =
      Response.err 400 "Feedback type and message are required." ∧
    feedbackHandler (some "lyrics") none none =
      Response.err 400 "Feedback type and message are required." ∧
    shareHandler emptyState 0 "gen" none (some "r") =
      (Response.err 400 "Analysis data and report text are required to create a shareable link.",
       emptyState) ∧
    shareHandler emptyState 0 "gen" none none =
      (Response.err 400 "Analysis data and report text are required to create a shareable link.",
       emptyState) ∧
    audioPostHandler emptyState "id1" none =
      (Response.err 400 "No audio file was uploaded.", emptyState) ∧
    catalogSubmitHandler emptyState 0 "gen" none none none none none none none none =
      (Response.err 400 "Missing required fields for catalog submission.", emptyState) ∧
    analyzeHandler false none (Except.ok acr0) id rand0 (Except.ok "r") =
      Response.err 400 "No audio file was uploaded." ∧
    compareHandler none none rand0 (Except.ok "r") =
      Response.err 400 "Both an AI song and a copyrighted song must be uploaded." ∧
    compareHandler none none rand0 (Except.ok "r") =
      Response.err 400 "Both an AI song and a copyrighted song must be uploaded." ∧
    getAnalysisHandler emptyState "zzz" =
      Response.err 404 "Shared analysis not found. It may have expired." ∧
    audioGetHandler emptyState "zzz" = Response.err 404 "Audio file not found." :=
  c4_validation_amended (some "lyrics") none (Except.ok []) (some []) (some "hello")
    (some { appState := "home", analysisData := none }) (Except.ok []) (Except.ok "r")
    (Except.ok "p") none emptyState 0 "gen" (some "r") none "id1" none false
    (Except.ok acr0) id rand0 none none none none none none none none "zzz" rfl "zzz" rfl

/-- C5: a successful /share answers `201 { id }` with the server-generated
id, schedules the entry's self-deletion exactly 24 hours (86,400,000 ms)
after creation, and until that deletion fires GET /analysis/:id returns the
stored entry (deletions of other ids do not affect it); once the entry's
own deletion has fired — or for any identifier not in the store — the GET
answers 404 with an error body. -/
theorem c5_share_lifecycle (st : ServerState) (now : Nat) (g : String)
    (ad : AnalysisData) (rt : String) (hrt : rt ≠ "")
    (g2 : String) (hg2 : g2 ≠ g) (i : String)
    (hi : mapLookup st.sharedAnalyses i = none) :
    (shareHandler st now g (some ad) (some rt)).1 = Response.ok 201 g ∧
    ((shareHandler st now g (some ad) (some rt)).2).timers =
      st.timers ++ [(now + 24 * 60 * 60 * 1000, g)] ∧
    getAnalysisHandler ((shareHandler st now g (some ad) (some rt)).2) g =
      Response.ok 200 { analysisData := ad, reportText := rt } ∧
    getAnalysisHandler (fireShareExpiry ((shareHandler st now g (some ad) (some rt)).2) g2) g =
      Response.ok 200 { analysisData := ad, reportText := rt } ∧
    getAnalysisHandler (fireShareExpiry ((shareHandler st now g (some ad) (some rt)).2) g) g =
      Response.err 404 "Shared analysis not found. It may have expired." ∧
    getAnalysisHandler st i =
      Response.err 404 "Shared analysis not found. It may have expired." := by
  have hsh : shareHandler st now g (some ad) (some rt) =
      (Response.ok 201 g,
       { st with
         sharedAnalyses := mapSet st.sharedAnalyses g { analysisData := ad, reportText := rt },
         timers := st.timers ++ [(now + 24 * 60 * 60 * 1000, g)] }) := by
    simp [shareHandler, hrt]
  rw [hsh]
  refine ⟨rfl, rfl, ?_, ?_, ?_, ?_⟩
  · simp [getAnalysisHandler, mapLookup_mapSet_self]
  · simp [getAnalysisHandler, fireShareExpiry,
          mapLookup_mapDelete_ne _ g2 g (Ne.symm hg2), mapLookup_mapSet_self]
  · simp [getAnalysisHandler, fireShareExpiry, mapLookup_mapDelete_self]
  · simp [getAnalysisHandler, hi]

/-- C5 witness: a concrete share into the empty store, an unrelated expiry,
the entry's own expiry, and an unknown identifier. -/
theorem c5_witness :
    (shareHandler emptyState 0 "abc123" (some (createNoMatchResult rand0)) (some "the report")).1 =
      Response.ok 201 "abc123" ∧
    ((shareHandler emptyState 0 "abc123" (some (createNoMatchResult rand0)) (some "the report")).2).timers =
      emptyState.timers ++ [(0 + 24 * 60 * 60 * 1000, "abc123")] ∧
    getAnalysisHandler
        ((shareHandler emptyState 0 "abc123" (some (createNoMatchResult rand0)) (some "the report")).2)
        "abc123" =
      Response.ok 200 { analysisData := createNoMatchResult rand0, reportText := "the report" } ∧
    getAnalysisHandler
        (fireShareExpiry
          ((shareHandler emptyState 0 "abc123" (some (createNoMatchResult rand0)) (some "the report")).2)
          "other") "abc123" =
      Response.ok 200 { analysisData := createNoMatchResult rand0, reportText := "the report" } ∧
    getAnalysisHandler
        (fireShareExpiry
          ((shareHandler emptyState 0 "abc123" (some (createNoMatchResult rand0)) (some "the report")).2)
          "abc123") "abc123" =
      Response.err 404 "Shared analysis not found. It may have expired." ∧
    getAnalysisHandler emptyState "missing" =
      Response.err 404 "Shared analysis not found. It may have expired." :=
  c5_share_lifecycle emptyState 0 "abc123" (createNoMatchResult rand0) "the report"
    (by decide) "other" (by decide) "missing" rfl

/-- C6: an /analyze request with no uploaded file, and a /compare request
with either file field absent, each answer exactly 400 with an
`{ error: string }` body — in particular never 500. -/
theorem c6_missing_file_400 (useLive : Bool) (net : Except String AcrResponse)
    (enc : String → String) (rand : Nat → ℚ) (rep : Except String String)
    (a c : Option UploadedFile) :
    analyzeHandler useLive none net enc rand rep =
      Response.err 400 "No audio file was uploaded." ∧
    compareHandler none c rand rep =
      Response.err 400 "Both an AI song and a copyrighted song must be uploaded." ∧
    compareHandler a none rand rep =
      Response.err 400 "Both an AI song and a copyrighted song must be uploaded." := by
  refine ⟨rfl, ?_, ?_⟩
  · cases c <;> rfl
  · cases a <;> rfl

/-- C7: GET /audio/:id answers 404 with an error body for an identifier not
in the audio store; after an upload is stored under an identifier, the GET
returns the stored bytes with Content-Type equal to the uploaded MIME type
and Content-Length equal to the stored buffer's byte length. -/
theorem c7_audio_store_roundtrip (st : ServerState) (i : String) (hi : i ≠ "")
    (f : UploadedFile) (j : String) (hj : mapLookup st.audioStore j = none) :
    audioGetHandler st j = Response.err 404 "Audio file not found." ∧
    (audioPostHandler st i (some f)).1 = Response.ok 204 () ∧
    audioGetHandler ((audioPostHandler st i (some f)).2) i =
      Response.ok 200 { contentType := f.mimetype, contentLength := f.buffer.length,
                        body := f.buffer } := by
  have hp : audioPostHandler st i (some f) =
      (Response.ok 204 (),
       { st with audioStore := mapSet st.audioStore i { buffer := f.buffer, mimetype := f.mimetype } }) := by
    simp [audioPostHandler, hi]
  rw [hp]
  refine ⟨?_, rfl, ?_⟩
  · simp [audioGetHandler, hj]
  · simp [audioGetHandler, mapLookup_mapSet_self]

/-- C7 witness: a concrete upload into the empty store and a miss. -/
theorem c7_witness :
    audioGetHandler emptyState "nothere" = Response.err 404 "Audio file not found." ∧
    (audioPostHandler emptyState "aid1" (some file1)).1 = Response.ok 204 () ∧
    audioGetHandler ((audioPostHandler emptyState "aid1" (some file1)).2) "aid1" =
      Response.ok 200 { contentType := file1.mimetype, contentLength := file1.buffer.length,
                        body := file1.buffer } :=
  c7_audio_store_roundtrip emptyState "aid1" (by decide) file1 "nothere" rfl

/-- C8 counterexample: with credentials absent the simulated path completes
with status 200, but `reportText` is the external Gemini text verbatim —
here the empty string — so the response carries an empty `reportText`,
contradicting the claimed non-emptiness. -/
theorem c8_counterexample :
    analyzeHandler false (some file0) (Except.ok acr0) id rand0 (Except.ok "") =
      Response.ok 200 { analysisData := runSimulatedFingerprinting rand0, reportText := "" } ∧
    String.length "" = 0 := ⟨rfl, rfl⟩

/-- C8 (amended): with external fingerprinting credentials absent and the
report-generation call succeeding with text r, /analyze answers 200 with
the simulated record — `overview.similarity` in [10, 90] and exactly one
fingerprinting match — and `reportText` equal to r verbatim (so non-empty
exactly when the external text is; the code does not itself guarantee
non-emptiness, nor success when the report call fails). -/
theorem c8_simulated_path (f : UploadedFile) (net : Except String AcrResponse)
    (enc : String → String) (rand : Nat → ℚ) (h : randOk rand) (r : String) :
    analyzeHandler false (some f) net enc rand (Except.ok r) =
      Response.ok 200 { analysisData := runSimulatedFingerprinting rand, reportText := r } ∧
    10 ≤ (runSimulatedFingerprinting rand).overview.similarity ∧
    (runSimulatedFingerprinting rand).overview.similarity ≤ 90 ∧
    (runSimulatedFingerprinting rand).fingerprinting.«matches».length = 1 := by
  obtain ⟨hb0, hb1⟩ := randInt_bounds rand h 0 80 (by norm_num)
  have hsim : (runSimulatedFingerprinting rand).overview.similarity =
      ((randInt rand 0 80 + 10 : ℤ) : ℚ) := rfl
  refine ⟨rfl, ?_, ?_, rfl⟩
  · rw [hsim]
    exact_mod_cast (by omega : (10 : ℤ) ≤ randInt rand 0 80 + 10)
  · rw [hsim]
    exact_mod_cast (by omega : randInt rand 0 80 + 10 ≤ (90 : ℤ))

/-- C8 witness at the all-zero random stream and a concrete file. -/
theorem c8_witness :
    randOk rand0 ∧
    (analyzeHandler false (some file0) (Except.ok acr0) id rand0
        (Except.ok "Your Song Analysis Report") =
      Response.ok 200 { analysisData := runSimulatedFingerprinting rand0,
                        reportText := "Your Song Analysis Report" } ∧
     10 ≤ (runSimulatedFingerprinting rand0).overview.similarity ∧
     (runSimulatedFingerprinting rand0).overview.similarity ≤ 90 ∧
     (runSimulatedFingerprinting rand0).fingerprinting.«matches».length = 1) :=
  ⟨fun _ => ⟨le_refl 0, by norm_num [rand0]⟩,
   c8_simulated_path file0 (Except.ok acr0) id rand0
     (fun _ => ⟨le_refl 0, by norm_num [rand0]⟩) "Your Song Analysis Report"⟩

/-- C9 counterexample: /analysis-audio/:id writes the audio store under the
client-supplied path parameter "abc"; posting twice under the same id
overwrites the previously stored blob, so identifiers are neither
exclusively server-generated nor never reused. -/
theorem c9_counterexample :
    mapLookup ((audioPostHandler emptyState "abc" (some file1)).2).audioStore "abc" =
      some { buffer := file1.buffer, mimetype := file1.mimetype } ∧
    mapLookup ((audioPostHandler (audioPostHandler emptyState "abc" (some file1)).2 "abc"
        (some file2)).2).audioStore "abc" =
      some { buffer := file2.buffer, mimetype := file2.mimetype } ∧
    ({ buffer := file1.buffer, mimetype := file1.mimetype } : AudioBlob) ≠
      { buffer := file2.buffer, mimetype := file2.mimetype } :=
  ⟨rfl, rfl, by decide⟩

/-- C9 (amended): the shared-analyses and catalog stores are keyed only by
the server-generated identifier of the request (`crypto.randomBytes(6)` /
`crypto.randomUUID()`, modelled by `genId = g`), and /catalog/submit keys
the audio blob under that same generated id; but /analysis-audio/:id writes
the audio store under the client-supplied path parameter, and every store
write has `Map.set` semantics, overwriting any existing binding of its key. -/
theorem c9_store_keys (st : ServerState) (now : Nat) (g : String)
    (ad : AnalysisData) (rt : String) (hrt : rt ≠ "")
    (t gnr tg aid uid un : String) (rs : ℚ) (f : UploadedFile)
    (ht : t ≠ "") (hgnr : gnr ≠ "") (htg : tg ≠ "") (haid : aid ≠ "")
    (huid : uid ≠ "") (hun : un ≠ "")
    (i : String) (hi : i ≠ "") :
    ((shareHandler st now g (some ad) (some rt)).2).sharedAnalyses =
      mapSet st.sharedAnalyses g { analysisData := ad, reportText := rt } ∧
    ((catalogSubmitHandler st now g (some t) (some gnr) (some tg) (some aid) (some uid)
        (some un) (some rs) (some f)).2).catalogEntries =
      mapSet st.catalogEntries g
        { id := g, analysisId := aid, userId := uid, userName := un, title := t,
          genre := gnr, tags := (tg.splitOn ",").map String.trim,
          dateSubmitted := now, riskScore := rs } ∧
    ((catalogSubmitHandler st now g (some t) (some gnr) (some tg) (some aid) (some uid)
        (some un) (some rs) (some f)).2).audioStore =
      mapSet st.audioStore g { buffer := f.buffer, mimetype := f.mimetype } ∧
    ((audioPostHandler st i (some f)).2).audioStore =
      mapSet st.audioStore i { buffer := f.buffer, mimetype := f.mimetype } := by
  have hcond : ¬(t = "" ∨ gnr = "" ∨ tg = "" ∨ aid = "" ∨ uid = "" ∨ un = "") := by
    simp [ht, hgnr, htg, haid, huid, hun]
  refine ⟨?_, ?_, ?_, ?_⟩
  · simp [shareHandler, hrt]
  · simp [catalogSubmitHandler, hcond]
  · simp [catalogSubmitHandler, hcond]
  · simp [audioPostHandler, hi]

/-- C9 witness: concrete share, catalog submission and audio post. -/
theorem c9_witness :
    ((shareHandler emptyState 5 "gen1" (some (createNoMatchResult rand0)) (some "rpt")).2).sharedAnalyses =
      mapSet emptyState.sharedAnalyses "gen1"
        { analysisData := createNoMatchResult rand0, reportText := "rpt" } ∧
    ((catalogSubmitHandler emptyState 5 "gen1" (some "Song") (some "pop") (some "chill, lofi")
        (some "an1") (some "u1") (some "Ana") (some 12) (some file1)).2).catalogEntries =
      mapSet emptyState.catalogEntries "gen1"
        { id := "gen1", analysisId := "an1", userId := "u1", userName := "Ana", title := "Song",
          genre := "pop", tags := ("chill, lofi".splitOn ",").map String.trim,
          dateSubmitted := 5, riskScore := 12 } ∧
    ((catalogSubmitHandler emptyState 5 "gen1" (some "Song") (some "pop") (some "chill, lofi")
        (some "an1") (some "u1") (some "Ana") (some 12) (some file1)).2).audioStore =
      mapSet emptyState.audioStore "gen1" { buffer := file1.buffer, mimetype := file1.mimetype } ∧
    ((audioPostHandler emptyState "clientid" (some file1)).2).audioStore =
      mapSet emptyState.audioStore "clientid" { buffer := file1.buffer, mimetype := file1.mimetype } :=
  c9_store_keys emptyState 5 "gen1" (createNoMatchResult rand0) "rpt" (by decide)
    "Song" "pop" "chill, lofi" "an1" "u1" "Ana" 12 file1
    (by decide) (by decide) (by decide) (by decide) (by decide) (by decide)
    "clientid" (by decide)

/-- C10: GET /catalog/entries answers 200 with a permutation of all stored
catalog entries sorted descending by submission timestamp, and leaves the
server state (all three stores) untouched. -/
theorem c10_catalog_listing (st : ServerState) :
    (catalogListHandler st).2 = st ∧
    (catalogListHandler st).1 =
      Response.ok 200 (List.insertionSort catalogLe (st.catalogEntries.map Prod.snd)) ∧
    (List.insertionSort catalogLe (st.catalogEntries.map Prod.snd)).Perm
      (st.catalogEntries.map Prod.snd) ∧
    (List.insertionSort catalogLe (st.catalogEntries.map Prod.snd)).Sorted catalogLe :=
  ⟨rfl, rfl, List.perm_insertionSort catalogLe _, List.sorted_insertionSort catalogLe _⟩

end MelodyCompare
